import Mathlib

/-
Verification of the traffic-classification core of the block_it local
forward proxy (src/src/website_blocker.ts, class LocalProxyServer).

The embedding translates the TypeScript source into Lean:
  - SiteConfig, the per-domain rule record (interface SiteConfig);
  - BlockedSites, the JS Map from domain key to SiteConfig, modelled as a
    function from String to Option SiteConfig (Map.set is pointwise update,
    Map.get is application);
  - addBlockedSite (method addBlockedSite, lines 21-26);
  - shouldBlockUrl (method shouldBlockUrl, lines 28-56), split into the
    URL-parse step and the pure decision on the parsed parts;
  - handleRequestEvent, the decision taken by the plain-request handler
    (lines 59-76 together with sendBlockedResponse, lines 103-128);
  - handleConnectEvent, the decision taken by the CONNECT handler
    (lines 79-95).

JS string primitives are modelled over the character list of a String:
jsStartsWith is String.prototype.startsWith, jsToLower is toLowerCase
(exact on ASCII, which is all the proxy compares).

parseURL models the WHATWG URL constructor, restricted to hierarchical
scheme://authority URLs, the only shape the proxy ever builds (it prefixes
targets with http:// or https://).  The model keeps the behaviours the
classifier depends on: the hostname is lowercased, the pathname of an
URL without a path is the single slash, the search string carries its
leading question mark and is empty when the query is empty, a string with
no scheme separator is a parse error (new URL throws, the classifier
catches).  Percent-escaping, dot-segment normalization, IDNA and IPv6
literals are outside the model; none of the classifier logic looks at
them.
-/

/-- Per-domain rule record, interface SiteConfig of the source. -/
structure SiteConfig where
  whitelistedPaths : List String
  blocked : Bool
deriving DecidableEq

/-- The blockedSites JS Map: domain key to rule.  Map.get k is application,
Map.set is pointwise update. -/
abbrev BlockedSites := String → Option SiteConfig

/-- JS Map.set: replace the binding of one key. -/
def mapSet (m : BlockedSites) (k : String) (v : SiteConfig) : BlockedSites :=
  fun k2 => if k2 = k then some v else m k2

/-- The freshly constructed empty Map. -/
def emptyBlockedSites : BlockedSites := fun _ => none

/-- JS String.prototype.toLowerCase, exact on ASCII. -/
def jsToLower (s : String) : String :=
  String.mk (s.data.map Char.toLower)

/-- JS String.prototype.startsWith: the second string is a prefix of the
first. -/
def jsStartsWith (s p : String) : Bool :=
  p.data.isPrefixOf s.data

/-- Method addBlockedSite (lines 21-26): store the domain key as given,
whitelist entries lowercased, blocked always true. -/
def addBlockedSite (m : BlockedSites) (domain : String) (whitelistedPaths : List String) : BlockedSites :=
  mapSet m domain
    { whitelistedPaths := whitelistedPaths.map jsToLower, blocked := true }

/-- The fields of the parsed URL object that shouldBlockUrl reads. -/
structure URLParts where
  scheme : String
  hostname : String
  port : Option Nat
  pathname : String
  search : String
deriving DecidableEq

/-- Scan for the first colon followed by two slashes; return the characters
before it and the characters after, or none when the separator is absent. -/
def splitSchemeAux : List Char → List Char → Option (List Char × List Char)
  | [], _ => none
  | c :: rest, acc =>
    if c = ':' ∧ rest.take 2 = ['/', '/'] then some (acc.reverse, rest.drop 2)
    else splitSchemeAux rest (c :: acc)

/-- Take characters until one of the stop characters; the stop character
stays at the head of the remainder. -/
def takeUntil (stops : List Char) : List Char → List Char × List Char
  | [] => ([], [])
  | c :: rest =>
    if c ∈ stops then ([], c :: rest)
    else
      let r := takeUntil stops rest
      (c :: r.1, r.2)

/-- Characters after the last at-sign (the whole list when there is none):
the host-port part of an authority with optional userinfo. -/
def afterLastAt (cs : List Char) : List Char :=
  (cs.reverse.takeWhile (fun c => c ≠ '@')).reverse

/-- Decimal value of a digit list. -/
def digitsToNat (cs : List Char) : Nat :=
  cs.foldl (fun n c => 10 * n + (c.toNat - 48)) 0

/-- Parse the authority: host, lowercased, and optional port.  An empty
host or a malformed or out-of-range port is a parse error, as in the
WHATWG constructor. -/
def parseAuthority (auth : List Char) : Option (String × Option Nat) :=
  let hostport := afterLastAt auth
  let hp := takeUntil [':'] hostport
  if hp.1.isEmpty then none
  else
    match hp.2 with
    | [] => some (String.mk (hp.1.map Char.toLower), none)
    | _ :: p =>
      if p.all Char.isDigit ∧ digitsToNat p ≤ 65535 then
        some (String.mk (hp.1.map Char.toLower),
              if p.isEmpty then none else some (digitsToNat p))
      else none

/-- The search component: leading question mark kept, fragment dropped,
empty when the query is empty. -/
def parseSearch (cs : List Char) : String :=
  match cs with
  | '?' :: qs =>
    let q := (takeUntil ['#'] qs).1
    if q.isEmpty then "" else String.mk ('?' :: q)
  | _ => ""

/-- Pathname and search from the characters following the authority.  A URL
with no path has pathname the single slash. -/
def parsePathSearch (pathRest : List Char) : String × String :=
  if pathRest.head? = some '/' then
    (String.mk (takeUntil ['?', '#'] pathRest).1,
     parseSearch (takeUntil ['?', '#'] pathRest).2)
  else ("/", parseSearch pathRest)

/-- Model of the WHATWG URL constructor for hierarchical URLs; none models
the thrown TypeError. -/
def parseURL (s : String) : Option URLParts :=
  match splitSchemeAux s.data [] with
  | none => none
  | some (schemeCs, rest) =>
    if schemeCs.isEmpty then none
    else
      match parseAuthority (takeUntil ['/', '?', '#'] rest).1 with
      | none => none
      | some hpPort =>
        some { scheme := String.mk (schemeCs.map Char.toLower),
               hostname := hpPort.1, port := hpPort.2,
               pathname := (parsePathSearch (takeUntil ['/', '?', '#'] rest).2).1,
               search := (parsePathSearch (takeUntil ['/', '?', '#'] rest).2).2 }

/-- Line 31: urlObj.hostname with one leading www. removed. -/
def stripWWW (h : String) : String :=
  match h.data with
  | 'w' :: 'w' :: 'w' :: '.' :: rest => String.mk rest
  | _ => h

/-- Lines 32-34: lowercased pathname concatenated with lowercased search. -/
def fullPathOf (u : URLParts) : String :=
  jsToLower u.pathname ++ jsToLower u.search

/-- Lines 43-47: one whitelist entry matches the full path. -/
def matchesWhitelist (fullPath w : String) : Bool :=
  fullPath == w || jsStartsWith fullPath (w ++ "/") || jsStartsWith fullPath (w ++ "?")

/-- Lines 31-52 of shouldBlockUrl, after the URL object is built: registry
lookup on the stripped hostname, then the whitelist loop. -/
def shouldBlockParts (m : BlockedSites) (u : URLParts) : Bool :=
  match m (stripWWW u.hostname) with
  | none => false
  | some siteConfig =>
    if !siteConfig.blocked then false
    else if siteConfig.whitelistedPaths.any
        (fun w => matchesWhitelist (fullPathOf u) w) then false
    else true

/-- Method shouldBlockUrl (lines 28-56): parse, then decide; the catch
branch returns false. -/
def shouldBlockUrl (m : BlockedSites) (targetUrl : String) : Bool :=
  match parseURL targetUrl with
  | none => false
  | some u => shouldBlockParts m u

/-- JS truthiness test done on req.url and req.headers.host: absent or
empty strings are falsy. -/
def isFalsy : Option String → Bool
  | none => true
  | some s => s.isEmpty

/-- Lines 66-68: the absolute target URL of a plain request. -/
def buildTargetUrl (reqUrl host : String) : String :=
  if jsStartsWith reqUrl "http" then reqUrl else "http://" ++ host ++ reqUrl

/-- The literal chunk of the block page template before the interpolated
URL (sendBlockedResponse, lines 104-117). -/
def blockedHtmlPre : String :=
  "\n            <!DOCTYPE html>\n            <html>\n                <head>\n                    <title>Site Blocked</title>\n                    <style>\n                        body \x7b font-family: Arial, sans-serif; text-align: center; margin-top: 100px; \x7d\n                        .blocked \x7b color: #d32f2f; font-size: 24px; \x7d\n                        .url \x7b color: #666; font-style: italic; \x7d\n                    </style>\n                </head>\n                <body>\n                    <div class=\"blocked\">🚫 Site Blocked</div>\n                    <p>Access to <span class=\"url\">"

/-- The literal chunk of the block page template after the interpolated
URL (lines 117-121). -/
def blockedHtmlPost : String :=
  "</span> has been blocked.</p>\n                    <p>This page was blocked by your Node.js website filter.</p>\n                </body>\n            </html>\n        "

/-- The rendered block page of sendBlockedResponse. -/
def blockedHtml (blockedUrl : String) : String :=
  blockedHtmlPre ++ blockedUrl ++ blockedHtmlPost

/-- Observable outcome of the plain-request handler: a synthesized
response with its status and body, or a relay to the origin. -/
inductive PlainOutcome where
  | respond (status : Nat) (body : String)
  | forward (host : String) (reqUrl : String)
deriving DecidableEq

/-- The decision of the http.createServer request handler (lines 59-76):
reject 400 on a falsy url or host header, render the block page on a
blocked target, otherwise forward. -/
def handleRequestEvent (m : BlockedSites) (reqUrl reqHost : Option String) : PlainOutcome :=
  if isFalsy reqUrl || isFalsy reqHost then PlainOutcome.respond 400 "Bad Request"
  else
    let u := reqUrl.getD ""
    let h := reqHost.getD ""
    let targetUrl := buildTargetUrl u h
    if shouldBlockUrl m targetUrl then PlainOutcome.respond 200 (blockedHtml targetUrl)
    else PlainOutcome.forward h u

/-- Whether the plain-request outcome opens a connection to the origin
server; only forwardRequest does. -/
def contactsOrigin : PlainOutcome → Bool
  | PlainOutcome.forward _ _ => true
  | PlainOutcome.respond _ _ => false

/-- Observable outcome of the CONNECT handler: a raw response written to
the client socket before closing it, or tunnel establishment. -/
inductive ConnectOutcome where
  | reject (response : String)
  | tunnel (hostport : String)
deriving DecidableEq

/-- The decision of the connect event handler (lines 79-95): reject 400 on
a falsy target, classify https:// plus the target, reject 403 when
blocked, otherwise hand over to handleConnect. -/
def handleConnectEvent (m : BlockedSites) (reqUrl : Option String) : ConnectOutcome :=
  if isFalsy reqUrl then ConnectOutcome.reject "HTTP/1.1 400 Bad Request\r\n\r\n"
  else
    let u := reqUrl.getD ""
    if shouldBlockUrl m ("https://" ++ u) then
      ConnectOutcome.reject "HTTP/1.1 403 Forbidden\r\n\r\n"
    else ConnectOutcome.tunnel u

/-- Whether the CONNECT outcome opens an outbound socket; only
handleConnect (net.connect) does. -/
def opensOutbound : ConnectOutcome → Bool
  | ConnectOutcome.tunnel _ => true
  | ConnectOutcome.reject _ => false

/-- Whether the CONNECT outcome ends the client socket; both reject
branches call clientSocket.end. -/
def closesClient : ConnectOutcome → Bool
  | ConnectOutcome.reject _ => true
  | ConnectOutcome.tunnel _ => false

/-- Unfolding shouldBlockUrl on a target the parser accepts. -/
theorem shouldBlockUrl_parsed (m : BlockedSites) (t : String) (u : URLParts)
    (h : parseURL t = some u) : shouldBlockUrl m t = shouldBlockParts m u := by
  unfold shouldBlockUrl
  rw [h]

/-- Characterization of the decision on a registered blocked domain: not
blocked exactly when some stored whitelist entry matches the full path. -/
theorem shouldBlockParts_false_iff (m : BlockedSites) (u : URLParts) (cfg : SiteConfig)
    (hreg : m (stripWWW u.hostname) = some cfg) (hb : cfg.blocked = true) :
    shouldBlockParts m u = false ↔
      ∃ w ∈ cfg.whitelistedPaths, matchesWhitelist (fullPathOf u) w = true := by
  unfold shouldBlockParts
  rw [hreg]
  simp [hb, List.any_eq_true]

/-- The three-way whitelist match spelled out: exact, sub-path, or same
path with a query string. -/
theorem matchesWhitelist_eq_true_iff (p w : String) :
    matchesWhitelist p w = true ↔
      p = w ∨ jsStartsWith p (w ++ "/") = true ∨ jsStartsWith p (w ++ "?") = true := by
  simp [matchesWhitelist, Bool.or_eq_true, beq_iff_eq, or_assoc]

/-- C1: for a registered blocked domain and a parseable plain-request target
on it with normalized full path p, shouldBlockUrl returns false iff some
stored whitelist entry w satisfies p equal to w, or p starting with w plus a
slash, or p starting with w plus a question mark; otherwise it returns
true. -/
theorem whitelist_boundary_iff (m : BlockedSites) (d : String) (cfg : SiteConfig)
    (target : String) (u : URLParts)
    (hparse : parseURL target = some u) (hdom : stripWWW u.hostname = d)
    (hreg : m d = some cfg) (hb : cfg.blocked = true) :
    shouldBlockUrl m target = false ↔
      ∃ w ∈ cfg.whitelistedPaths,
        fullPathOf u = w ∨ jsStartsWith (fullPathOf u) (w ++ "/") = true ∨
          jsStartsWith (fullPathOf u) (w ++ "?") = true := by
  subst hdom
  rw [shouldBlockUrl_parsed m target u hparse,
    shouldBlockParts_false_iff m u cfg hreg hb]
  exact exists_congr fun w =>
    and_congr_right fun _ => matchesWhitelist_eq_true_iff (fullPathOf u) w

/-- Witness for C1 on the boundary examples: the entry /not admits /not/x
and leaves /nothing blocked. -/
theorem whitelist_boundary_iff_witness :
    shouldBlockUrl (addBlockedSite emptyBlockedSites "example.com" ["/not"])
      "https://example.com/not/x" = false ∧
    shouldBlockUrl (addBlockedSite emptyBlockedSites "example.com" ["/not"])
      "https://example.com/not" = false ∧
    shouldBlockUrl (addBlockedSite emptyBlockedSites "example.com" ["/not"])
      "https://example.com/not?y" = false ∧
    shouldBlockUrl (addBlockedSite emptyBlockedSites "example.com" ["/not"])
      "https://example.com/nothing" = true := by
  refine ⟨?_, by decide, by decide, by decide⟩
  exact (whitelist_boundary_iff
    (addBlockedSite emptyBlockedSites "example.com" ["/not"]) "example.com"
    { whitelistedPaths := ["/not"], blocked := true }
    "https://example.com/not/x"
    { scheme := "https", hostname := "example.com", port := none,
      pathname := "/not/x", search := "" }
    (by decide) (by decide) (by decide) (by decide)).mpr
    ⟨"/not", by decide, Or.inr (Or.inl (by decide))⟩

/-- C2: the classifier is a total function (the try block never lets an
error escape), and a target the URL parser rejects is classified as not
blocked: the catch branch returns false. -/
theorem classifier_fails_open (m : BlockedSites) (t : String)
    (h : parseURL t = none) : shouldBlockUrl m t = false := by
  unfold shouldBlockUrl
  rw [h]

/-- Witness for C2 at a malformed target. -/
theorem classifier_fails_open_witness :
    parseURL "not a url" = none ∧
    shouldBlockUrl (addBlockedSite emptyBlockedSites "youtube.com" []) "not a url" = false :=
  ⟨by decide, classifier_fails_open (addBlockedSite emptyBlockedSites "youtube.com" [])
    "not a url" (by decide)⟩

/-- C4: a parseable target whose stripped hostname is not a key of the
registry is never blocked, whatever its path and query. -/
theorem unregistered_domain_not_blocked (m : BlockedSites) (t : String) (u : URLParts)
    (hparse : parseURL t = some u) (habsent : m (stripWWW u.hostname) = none) :
    shouldBlockUrl m t = false := by
  rw [shouldBlockUrl_parsed m t u hparse]
  unfold shouldBlockParts
  rw [habsent]

/-- Witness for C4 at an unregistered domain. -/
theorem unregistered_domain_not_blocked_witness :
    shouldBlockUrl emptyBlockedSites "https://example.com/x?q=1" = false :=
  unregistered_domain_not_blocked emptyBlockedSites "https://example.com/x?q=1"
    { scheme := "https", hostname := "example.com", port := none,
      pathname := "/x", search := "?q=1" }
    (by decide) (by decide)

/-- C5: re-registering a domain replaces its rule wholesale: the stored
entry is exactly the lowercased second whitelist, and classification of
every target agrees with a registry that only ever saw the second
registration. -/
theorem reregistration_replaces (m : BlockedSites) (d : String) (W1 W2 : List String) :
    (addBlockedSite (addBlockedSite m d W1) d W2) d =
      some { whitelistedPaths := W2.map jsToLower, blocked := true }
    ∧ ∀ t : String, shouldBlockUrl (addBlockedSite (addBlockedSite m d W1) d W2) t =
        shouldBlockUrl (addBlockedSite m d W2) t := by
  have hmap : addBlockedSite (addBlockedSite m d W1) d W2 = addBlockedSite m d W2 := by
    funext k
    unfold addBlockedSite mapSet
    by_cases h : k = d <;> simp [h]
  constructor
  · rw [hmap]
    unfold addBlockedSite mapSet
    simp
  · intro t
    rw [hmap]

/-- Counterexample to C3: addBlockedSite does not canonicalize the key at
registration time.  Registering www.example.com and registering example.com
produce different registry keys, and because the classifier strips the
leading www. from the request hostname before the lookup, a rule registered
under www.example.com is never hit: the same request URL is not blocked
under the www-keyed registry but is blocked under the bare-keyed one. -/
theorem registration_key_not_canonical_cex :
    (addBlockedSite emptyBlockedSites "www.example.com" []) "example.com" = none
    ∧ (addBlockedSite emptyBlockedSites "example.com" []) "example.com" =
        some { whitelistedPaths := [], blocked := true }
    ∧ shouldBlockUrl (addBlockedSite emptyBlockedSites "www.example.com" [])
        "https://www.example.com/" = false
    ∧ shouldBlockUrl (addBlockedSite emptyBlockedSites "example.com" [])
        "https://www.example.com/" = true
    ∧ (addBlockedSite emptyBlockedSites "Example.com" []) "example.com" = none := by
  decide

/-- C3 as amended: the registration stores the domain key exactly as given
(only whitelist entries are lowercased); canonicalization happens on the
lookup side instead, where the classifier consults the stripped parsed
hostname only, the hostname coming out of URL parsing lowercased.  Hence a
domain registered in canonical form covers requests to both the bare and
the www-prefixed hostname, because both strip to the same key, while a rule
keyed www.example.com is consulted exactly for hostnames that strip to it,
such as www.www.example.com, and m.example.com strips to a distinct key. -/
theorem registration_key_as_given (m : BlockedSites) (d k : String) (wl : List String) :
    ((addBlockedSite m d wl) k =
      if k = d then some { whitelistedPaths := wl.map jsToLower, blocked := true } else m k)
    ∧ (∀ u v : URLParts, stripWWW u.hostname = stripWWW v.hostname →
        fullPathOf u = fullPathOf v → shouldBlockParts m u = shouldBlockParts m v)
    ∧ stripWWW "www.example.com" = "example.com"
    ∧ stripWWW "example.com" = "example.com"
    ∧ stripWWW "m.example.com" = "m.example.com"
    ∧ stripWWW "www.www.example.com" = "www.example.com" := by
  refine ⟨rfl, ?_, by decide, by decide, by decide, by decide⟩
  intro u v h1 h2
  unfold shouldBlockParts
  rw [h1, h2]

/-- Witness for the amended C3: the stored entry sits under the key as
given, two parsed requests whose hostnames strip to the same key are
classified alike, and a rule keyed www.example.com is reachable through the
doubled-www hostname, which strips to it. -/
theorem registration_key_as_given_witness :
    (addBlockedSite emptyBlockedSites "example.com" ["/A"]) "example.com" =
      some { whitelistedPaths := ["/a"], blocked := true }
    ∧ shouldBlockParts (addBlockedSite emptyBlockedSites "example.com" [])
        { scheme := "https", hostname := "www.example.com", port := none,
          pathname := "/p", search := "" } =
      shouldBlockParts (addBlockedSite emptyBlockedSites "example.com" [])
        { scheme := "https", hostname := "example.com", port := none,
          pathname := "/p", search := "" }
    ∧ shouldBlockUrl (addBlockedSite emptyBlockedSites "www.example.com" [])
        "https://www.www.example.com/" = true := by
  refine ⟨?_, ?_, by decide⟩
  · have h := (registration_key_as_given emptyBlockedSites "example.com" "example.com" ["/A"]).1
    rw [h]
    decide
  · exact (registration_key_as_given (addBlockedSite emptyBlockedSites "example.com" [])
      "example.com" "example.com" []).2.1
      { scheme := "https", hostname := "www.example.com", port := none,
        pathname := "/p", search := "" }
      { scheme := "https", hostname := "example.com", port := none,
        pathname := "/p", search := "" }
      (by decide) (by decide)

/-- A nonempty string is truthy. -/
theorem isFalsy_false_of_ne (s : String) (h : s ≠ "") : isFalsy (some s) = false := by
  cases he : s.isEmpty
  · simp [isFalsy, he]
  · exact absurd ((String.isEmpty_iff s).mp he) h

/-- C6: a CONNECT request whose target classifies as blocked is answered
with the 403 Forbidden line at the proxy protocol layer, the client socket
is ended, and no outbound socket is opened. -/
theorem blocked_tunnel_rejected (m : BlockedSites) (host : String)
    (hb : shouldBlockUrl m ("https://" ++ host) = true) :
    handleConnectEvent m (some host) =
      ConnectOutcome.reject "HTTP/1.1 403 Forbidden\r\n\r\n"
    ∧ opensOutbound (handleConnectEvent m (some host)) = false
    ∧ closesClient (handleConnectEvent m (some host)) = true := by
  have hne : host ≠ "" := by
    intro he
    subst he
    have hnone : shouldBlockUrl m ("https://" ++ "") = false := by
      unfold shouldBlockUrl
      rw [show parseURL ("https://" ++ "") = none from by decide]
    rw [hnone] at hb
    exact absurd hb (by decide)
  have hout : handleConnectEvent m (some host) =
      ConnectOutcome.reject "HTTP/1.1 403 Forbidden\r\n\r\n" := by
    unfold handleConnectEvent
    rw [isFalsy_false_of_ne host hne]
    simp [hb]
  exact ⟨hout, by rw [hout]; rfl, by rw [hout]; rfl⟩

/-- Witness for C6: the spec scenario, host youtube.com:443 against the
registry that blocks youtube.com with whitelist /not. -/
theorem blocked_tunnel_rejected_witness :
    handleConnectEvent (addBlockedSite emptyBlockedSites "youtube.com" ["/not"])
      (some "youtube.com:443") = ConnectOutcome.reject "HTTP/1.1 403 Forbidden\r\n\r\n"
    ∧ opensOutbound (handleConnectEvent (addBlockedSite emptyBlockedSites "youtube.com" ["/not"])
        (some "youtube.com:443")) = false
    ∧ closesClient (handleConnectEvent (addBlockedSite emptyBlockedSites "youtube.com" ["/not"])
        (some "youtube.com:443")) = true :=
  blocked_tunnel_rejected (addBlockedSite emptyBlockedSites "youtube.com" ["/not"])
    "youtube.com:443" (by decide)

/-- C7: a plain request whose built target classifies as blocked is
answered with status 200 and the rendered block page, whose body embeds
the blocked target URL between the two literal template chunks, and the
origin server is not contacted. -/
theorem blocked_plain_request_page (m : BlockedSites) (u h : String)
    (hu : u ≠ "") (hh : h ≠ "")
    (hb : shouldBlockUrl m (buildTargetUrl u h) = true) :
    handleRequestEvent m (some u) (some h) =
      PlainOutcome.respond 200 (blockedHtml (buildTargetUrl u h))
    ∧ contactsOrigin (handleRequestEvent m (some u) (some h)) = false
    ∧ blockedHtml (buildTargetUrl u h) =
        blockedHtmlPre ++ buildTargetUrl u h ++ blockedHtmlPost := by
  have hout : handleRequestEvent m (some u) (some h) =
      PlainOutcome.respond 200 (blockedHtml (buildTargetUrl u h)) := by
    unfold handleRequestEvent
    rw [isFalsy_false_of_ne u hu, isFalsy_false_of_ne h hh]
    simp [hb]
  exact ⟨hout, by rw [hout]; rfl, rfl⟩

/-- Witness for C7: the watch page of the blocked youtube.com registry. -/
theorem blocked_plain_request_page_witness :
    handleRequestEvent (addBlockedSite emptyBlockedSites "youtube.com" ["/not"])
      (some "/watch?v=123") (some "youtube.com") =
      PlainOutcome.respond 200 (blockedHtml (buildTargetUrl "/watch?v=123" "youtube.com"))
    ∧ contactsOrigin (handleRequestEvent (addBlockedSite emptyBlockedSites "youtube.com" ["/not"])
        (some "/watch?v=123") (some "youtube.com")) = false
    ∧ blockedHtml (buildTargetUrl "/watch?v=123" "youtube.com") =
        blockedHtmlPre ++ buildTargetUrl "/watch?v=123" "youtube.com" ++ blockedHtmlPost :=
  blocked_plain_request_page (addBlockedSite emptyBlockedSites "youtube.com" ["/not"])
    "/watch?v=123" "youtube.com" (by decide) (by decide) (by decide)

/-- C8: a plain request with a missing URL or missing Host header is
answered 400 Bad Request with no relay, whatever the registry holds, and a
CONNECT request with a missing target is answered with the 400 line and the
socket is ended, with no outbound socket opened. -/
theorem malformed_request_rejected (m : BlockedSites) (ou oh : Option String) :
    handleRequestEvent m none oh = PlainOutcome.respond 400 "Bad Request"
    ∧ handleRequestEvent m ou none = PlainOutcome.respond 400 "Bad Request"
    ∧ contactsOrigin (handleRequestEvent m none oh) = false
    ∧ contactsOrigin (handleRequestEvent m ou none) = false
    ∧ handleConnectEvent m none = ConnectOutcome.reject "HTTP/1.1 400 Bad Request\r\n\r\n"
    ∧ opensOutbound (handleConnectEvent m none) = false
    ∧ closesClient (handleConnectEvent m none) = true := by
  have h1 : handleRequestEvent m none oh = PlainOutcome.respond 400 "Bad Request" := by
    simp [handleRequestEvent, isFalsy]
  have h2 : handleRequestEvent m ou none = PlainOutcome.respond 400 "Bad Request" := by
    simp [handleRequestEvent, isFalsy]
  have h3 : handleConnectEvent m none =
      ConnectOutcome.reject "HTTP/1.1 400 Bad Request\r\n\r\n" := by
    simp [handleConnectEvent, isFalsy]
  exact ⟨h1, h2, by rw [h1]; rfl, by rw [h2]; rfl, h3, by rw [h3]; rfl, by rw [h3]; rfl⟩

/-- Character data of an appended string. -/
theorem string_data_append (a b : String) : (a ++ b).data = a.data ++ b.data := by
  cases a
  cases b
  rfl

/-- takeUntil passes the whole list through when no stop character
occurs. -/
theorem takeUntil_no_stop (stops l : List Char) :
    (∀ c ∈ l, c ∉ stops) → takeUntil stops l = (l, []) := by
  induction l with
  | nil => intro _; rfl
  | cons c rest ih =>
    intro h
    have hc : c ∉ stops := h c (List.mem_cons_self c rest)
    have ih2 := ih (fun x hx => h x (List.mem_cons_of_mem c hx))
    simp [takeUntil, hc, ih2]

/-- The scheme scan lands on the first colon-slash-slash separator when the
characters before it contain no colon. -/
theorem splitSchemeAux_append (pre rest acc : List Char) :
    (∀ c ∈ pre, c ≠ ':') →
    splitSchemeAux (pre ++ ':' :: '/' :: '/' :: rest) acc =
      some (acc.reverse ++ pre, rest) := by
  induction pre generalizing acc with
  | nil =>
    intro _
    simp [splitSchemeAux]
  | cons c pre2 ih =>
    intro hpre
    have hc : c ≠ ':' := hpre c (List.mem_cons_self c pre2)
    have hpre2 : ∀ x ∈ pre2, x ≠ ':' := fun x hx => hpre x (List.mem_cons_of_mem c hx)
    rw [List.cons_append]
    simp only [splitSchemeAux, hc, false_and, if_false]
    rw [ih (c :: acc) hpre2]
    simp

/-- The pathname produced by the parser always begins with a slash. -/
theorem parsePathSearch_data_head (l : List Char) :
    ∃ r, (parsePathSearch l).1.data = '/' :: r := by
  unfold parsePathSearch
  by_cases hh : l.head? = some '/'
  · rw [if_pos hh]
    cases l with
    | nil => cases hh
    | cons c rest =>
      have hc : c = '/' := by simpa using hh
      subst hc
      have hn : ('/' : Char) ∉ (['?', '#'] : List Char) := by decide
      simp [takeUntil, hn]
  · rw [if_neg hh]
    exact ⟨[], rfl⟩

/-- Every successfully parsed URL has a slash-headed pathname. -/
theorem parseURL_pathname_head (s : String) (u : URLParts)
    (h : parseURL s = some u) : ∃ r, u.pathname.data = '/' :: r := by
  unfold parseURL at h
  split at h
  · cases h
  · split at h
    · cases h
    · split at h
      · cases h
      · cases h
        exact parsePathSearch_data_head _

/-- Parsing https:// followed by a CONNECT target (no slash, question mark
or hash): the authority is the whole target and the pathname and search
are the defaults. -/
theorem parseURL_https (hp : String)
    (hstop : ∀ c ∈ hp.data, c ≠ '/' ∧ c ≠ '?' ∧ c ≠ '#') :
    parseURL ("https://" ++ hp) =
      match parseAuthority hp.data with
      | none => none
      | some hpPort =>
        some { scheme := "https", hostname := hpPort.1, port := hpPort.2,
               pathname := "/", search := "" } := by
  have hdata : ("https://" ++ hp).data =
      ['h', 't', 't', 'p', 's'] ++ ':' :: '/' :: '/' :: hp.data := by
    cases hp
    rfl
  have hnostop : ∀ c ∈ hp.data, c ∉ (['/', '?', '#'] : List Char) := by
    intro c hc
    have h := hstop c hc
    simp [h.1, h.2.1, h.2.2]
  have hsch : String.mk (List.map Char.toLower ['h', 't', 't', 'p', 's']) = "https" := by
    decide
  have hpp : parsePathSearch [] = ("/", "") := by decide
  have hie : (['h', 't', 't', 'p', 's'] : List Char).isEmpty = false := by decide
  unfold parseURL
  rw [hdata, splitSchemeAux_append ['h', 't', 't', 'p', 's'] hp.data [] (by decide)]
  simp only [List.reverse_nil, List.nil_append]
  rw [hie, takeUntil_no_stop _ _ hnostop]
  simp only [Bool.false_eq_true, if_false]
  rw [hsch, hpp]

/-- Against the root path, a whitelist entry matches exactly when it is the
one-slash string or the empty string. -/
theorem matchesWhitelist_root (w : String) :
    matchesWhitelist "/" w = true ↔ w = "/" ∨ w = "" := by
  obtain ⟨cs⟩ := w
  cases cs with
  | nil => decide
  | cons c cs2 =>
    cases cs2 with
    | nil =>
      constructor
      · intro h
        simp only [matchesWhitelist, Bool.or_eq_true, beq_iff_eq] at h
        rcases h with (h | h) | h
        · exact Or.inl h.symm
        · exfalso
          have hd : (String.mk [c] ++ "/").data = [c, '/'] := by
            rw [string_data_append]
            rfl
          simp [jsStartsWith, hd, List.isPrefixOf] at h
        · exfalso
          have hd : (String.mk [c] ++ "?").data = [c, '?'] := by
            rw [string_data_append]
            rfl
          simp [jsStartsWith, hd, List.isPrefixOf] at h
      · intro h
        rcases h with h | h
        · rw [h]
          decide
        · rw [h]
          decide
    | cons c2 cs3 =>
      constructor
      · intro h
        exfalso
        simp only [matchesWhitelist, Bool.or_eq_true, beq_iff_eq] at h
        rcases h with (h | h) | h
        · have := congrArg String.data h
          simp at this
        · have hd : (String.mk (c :: c2 :: cs3) ++ "/").data = c :: c2 :: (cs3 ++ ['/']) := by
            rw [string_data_append]
            rfl
          simp [jsStartsWith, hd, List.isPrefixOf] at h
        · have hd : (String.mk (c :: c2 :: cs3) ++ "?").data = c :: c2 :: (cs3 ++ ['?']) := by
            rw [string_data_append]
            rfl
          simp [jsStartsWith, hd, List.isPrefixOf] at h
      · intro h
        exfalso
        rcases h with h | h <;> { have := congrArg String.data h; simp at this }

/-- C9: a CONNECT target is classified as the URL https:// plus the target,
which parses with pathname the single slash and empty search, so a
registered blocked domain tunnels through exactly when its whitelist holds
the one-slash entry or the empty entry; every other entry is inert at the
tunnel layer. -/
theorem tunnel_root_whitelist_only (m : BlockedSites) (hp : String) (u : URLParts)
    (cfg : SiteConfig)
    (hparse : parseURL ("https://" ++ hp) = some u)
    (hstop : ∀ c ∈ hp.data, c ≠ '/' ∧ c ≠ '?' ∧ c ≠ '#')
    (hreg : m (stripWWW u.hostname) = some cfg)
    (hb : cfg.blocked = true) :
    u.pathname = "/" ∧ u.search = ""
    ∧ (handleConnectEvent m (some hp) = ConnectOutcome.tunnel hp ↔
        "/" ∈ cfg.whitelistedPaths ∨ "" ∈ cfg.whitelistedPaths) := by
  have hne : hp ≠ "" := by
    intro he
    subst he
    rw [show parseURL ("https://" ++ "") = none from by decide] at hparse
    cases hparse
  have hshape : u.pathname = "/" ∧ u.search = "" := by
    rw [parseURL_https hp hstop] at hparse
    cases hA : parseAuthority hp.data with
    | none =>
      rw [hA] at hparse
      cases hparse
    | some hpPort =>
      rw [hA] at hparse
      cases hparse
      exact ⟨rfl, rfl⟩
  have hfp : fullPathOf u = "/" := by
    unfold fullPathOf
    rw [hshape.1, hshape.2]
    decide
  have hiff : shouldBlockUrl m ("https://" ++ hp) = false ↔
      ("/" ∈ cfg.whitelistedPaths ∨ "" ∈ cfg.whitelistedPaths) := by
    rw [shouldBlockUrl_parsed m _ u hparse, shouldBlockParts_false_iff m u cfg hreg hb]
    constructor
    · rintro ⟨w, hw, hm⟩
      rw [hfp] at hm
      rcases (matchesWhitelist_root w).mp hm with h | h
      · exact Or.inl (h ▸ hw)
      · exact Or.inr (h ▸ hw)
    · rintro (h | h)
      · exact ⟨"/", h, by rw [hfp]; decide⟩
      · exact ⟨"", h, by rw [hfp]; decide⟩
  refine ⟨hshape.1, hshape.2, ?_, ?_⟩
  · intro ht
    apply hiff.mp
    cases hsb : shouldBlockUrl m ("https://" ++ hp) with
    | false => rfl
    | true =>
      exfalso
      unfold handleConnectEvent at ht
      rw [isFalsy_false_of_ne hp hne] at ht
      simp [hsb] at ht
  · intro hw
    have hsb := hiff.mpr hw
    unfold handleConnectEvent
    rw [isFalsy_false_of_ne hp hne]
    simp [hsb]

/-- Witness for C9: with whitelist containing the one-slash entry the
tunnel is allowed, and the theorem applies at the concrete parse. -/
theorem tunnel_root_whitelist_only_witness :
    handleConnectEvent (addBlockedSite emptyBlockedSites "youtube.com" ["/"])
      (some "youtube.com:443") = ConnectOutcome.tunnel "youtube.com:443" :=
  (tunnel_root_whitelist_only (addBlockedSite emptyBlockedSites "youtube.com" ["/"])
    "youtube.com:443"
    { scheme := "https", hostname := "youtube.com", port := some 443,
      pathname := "/", search := "" }
    { whitelistedPaths := ["/"], blocked := true }
    (by decide) (by decide) (by decide) (by decide)).2.2.mpr (Or.inl (by decide))

/-- C10: a whitelist entry that is the empty string admits every parseable
target of its domain, because every parsed full path begins with a slash
and therefore starts with the empty entry followed by a slash. -/
theorem empty_entry_admits_all (m : BlockedSites) (t : String) (u : URLParts)
    (cfg : SiteConfig) (hparse : parseURL t = some u)
    (hreg : m (stripWWW u.hostname) = some cfg)
    (hw : "" ∈ cfg.whitelistedPaths) :
    shouldBlockUrl m t = false := by
  obtain ⟨r, hr⟩ := parseURL_pathname_head t u hparse
  have hdata : (fullPathOf u).data =
      '/' :: (r.map Char.toLower ++ (u.search.data.map Char.toLower)) := by
    show (jsToLower u.pathname ++ jsToLower u.search).data = _
    rw [string_data_append]
    show u.pathname.data.map Char.toLower ++ u.search.data.map Char.toLower = _
    rw [hr]
    rfl
  have hmatch : matchesWhitelist (fullPathOf u) "" = true := by
    apply (matchesWhitelist_eq_true_iff (fullPathOf u) "").mpr
    refine Or.inr (Or.inl ?_)
    unfold jsStartsWith
    rw [show (("" ++ "/") : String).data = ['/'] from by decide, hdata]
    simp [List.isPrefixOf]
  have hany : cfg.whitelistedPaths.any
      (fun w => matchesWhitelist (fullPathOf u) w) = true :=
    List.any_eq_true.mpr ⟨"", hw, hmatch⟩
  rw [shouldBlockUrl_parsed m t u hparse]
  unfold shouldBlockParts
  rw [hreg]
  cases hbl : cfg.blocked <;> simp [hbl, hany]

/-- Witness for C10: the empty entry admits an arbitrary watch page. -/
theorem empty_entry_admits_all_witness :
    shouldBlockUrl (addBlockedSite emptyBlockedSites "example.com" [""])
      "https://example.com/watch?v=1" = false :=
  empty_entry_admits_all (addBlockedSite emptyBlockedSites "example.com" [""])
    "https://example.com/watch?v=1"
    { scheme := "https", hostname := "example.com", port := none,
      pathname := "/watch", search := "?v=1" }
    { whitelistedPaths := [""], blocked := true }
    (by decide) (by decide) (by decide)
